import Mathlib

/-!
Verification of `minecraft_terminal.py` (discord_minecraft_terminal).

The Python module is shallowly embedded: the globals `rcon_connected` and
`last_log_position` together with the `MinecraftRCON.rcon` field become an
explicit state record; outcomes of external transport calls (the mcrcon
socket operations) are supplied by explicit oracle values; the watched log
file is a list of characters; webhook messages are collected in lists.
-/

/-- State of the RCON session: the `self.rcon` field of `MinecraftRCON`
(`none` before the first `connect`, `some ()` once an `MCRcon` instance has
been assigned — the code never resets it to `None`) together with the module
global `rcon_connected`. -/
structure RconState where
  rcon : Option Unit
  rconConnected : Bool
deriving DecidableEq, Repr

/-- Outcome of one transport-level `self.rcon.command(...)` call:
a normal response, a raised `ConnectionResetError`, or any other raised
exception. -/
inductive CmdOutcome where
  | ok (resp : String)
  | reset (msg : String)
  | err (msg : String)
deriving DecidableEq, Repr

/-- Outcome of the transport work inside `MinecraftRCON.connect` (the
`MCRcon.connect()` call plus the `list` probe command): success, a raised
`ConnectionRefusedError`, or any other raised exception. -/
inductive ConnectOutcome where
  | ok
  | refused (msg : String)
  | fail (msg : String)
deriving DecidableEq, Repr

/-- Environment oracle for one call to `MinecraftRCON.command`: the outcome
of the first transport send, whether the transport close during recovery
raises, the outcome of the reconnect, and the outcome of the retried send. -/
structure CmdBehavior where
  first : CmdOutcome
  closeRaises : Bool
  reconnect : ConnectOutcome
  retry : CmdOutcome
deriving DecidableEq, Repr

/-- Result of `MinecraftRCON.connect`: the new state, the returned boolean,
and the webhook notifications sent (emoji prefixes of the Python strings are
omitted). -/
structure ConnResult where
  state : RconState
  success : Bool
  notices : List String
deriving DecidableEq, Repr

/-- The method `MinecraftRCON.connect`.  It first assigns
`self.rcon = MCRcon(host, password, port)` (so the field holds a fresh
instance on every path, including the failing ones), then connects and runs
the `list` probe; on success it sets `rcon_connected = True` and returns
`True`; on `ConnectionRefusedError` or any other exception it sets
`rcon_connected = False`, sends a classified webhook message and returns
`False`. -/
def MinecraftRCON.connect (st : RconState) (b : ConnectOutcome) : ConnResult :=
  let st1 : RconState := { st with rcon := some () }
  match b with
  | .ok =>
      { state := { st1 with rconConnected := true },
        success := true,
        notices := ["Connected to Minecraft server RCON"] }
  | .refused _ =>
      { state := { st1 with rconConnected := false },
        success := false,
        notices := ["RCON connection refused. Is the Minecraft server running?"] }
  | .fail msg =>
      { state := { st1 with rconConnected := false },
        success := false,
        notices := ["RCON connection error: " ++ msg] }

/-- The method `MinecraftRCON.disconnect`.  Inside a `try`: if `self.rcon` is set it
calls `self.rcon.disconnect()` and only then assigns
`rcon_connected = False`; if the close raises, the exception is caught and
logged, so the flag is left unchanged.  If `self.rcon` is `None` only a
warning is logged.  The `rcon` field itself is never cleared. -/
def MinecraftRCON.disconnect (st : RconState) (closeRaises : Bool) : RconState :=
  match st.rcon with
  | some _ => if closeRaises then st else { st with rconConnected := false }
  | none => st

/-- Result of `MinecraftRCON.command`: final state, returned string,
the number of transport `rcon.command` sends performed, and the number of
disconnect/reconnect recovery attempts performed. -/
structure CmdResult where
  state : RconState
  result : String
  sendCount : Nat
  recoverCount : Nat
deriving DecidableEq, Repr

/-- Outcome of evaluating `self.rcon.command(cmd)` in a given state: when
the field is `None`, Python raises an `AttributeError` (an ordinary
exception); otherwise the oracle outcome applies. -/
def transportCommand (handle : Option Unit) (o : CmdOutcome) : CmdOutcome :=
  match handle with
  | none => .err "NoneType object has no attribute command"
  | some _ => o

/-- The method `MinecraftRCON.command`.  If the global `rcon_connected` is false it
returns the sentinel immediately.  Otherwise it sends the command; on a
`ConnectionResetError` it disconnects, reconnects, and if the reconnect
returned `True` retries the send once, the inner `try` turning any failure
of the retry into `"Error: ..."`; if the reconnect failed it returns
`"Error: Connection lost and reconnection failed"`.  Any other exception of
the first send yields `"Error: ..."`. -/
def MinecraftRCON.command (st : RconState) (b : CmdBehavior) (_cmd : String) :
    CmdResult :=
  if st.rconConnected = false then
    { state := st, result := "Not connected to Minecraft server",
      sendCount := 0, recoverCount := 0 }
  else
    match transportCommand st.rcon b.first with
    | .ok resp =>
        { state := st, result := resp, sendCount := 1, recoverCount := 0 }
    | .reset _ =>
        let st1 := MinecraftRCON.disconnect st b.closeRaises
        let c := MinecraftRCON.connect st1 b.reconnect
        if c.success then
          match transportCommand c.state.rcon b.retry with
          | .ok resp =>
              { state := c.state, result := resp,
                sendCount := 2, recoverCount := 1 }
          | .reset msg =>
              { state := c.state, result := "Error: " ++ msg,
                sendCount := 2, recoverCount := 1 }
          | .err msg =>
              { state := c.state, result := "Error: " ++ msg,
                sendCount := 2, recoverCount := 1 }
        else
          { state := c.state,
            result := "Error: Connection lost and reconnection failed",
            sendCount := 1, recoverCount := 1 }
    | .err msg =>
        { state := st, result := "Error: " ++ msg,
          sendCount := 1, recoverCount := 0 }

/-- Does the first character list occur at the start of the second? -/
def hasPre : List Char → List Char → Bool
  | [], _ => true
  | _ :: _, [] => false
  | a :: as, b :: bs => a == b && hasPre as bs

/-- A string carrying the error classification used by
`MinecraftRCON.command`: it starts with `"Error: "`. -/
def isErrorClassified (s : String) : Bool :=
  hasPre ("Error: ".data) s.data

example :
    (MinecraftRCON.command ⟨some (), false⟩
      ⟨.ok "ignored", false, .ok, .ok "ignored"⟩ "list").result =
      "Not connected to Minecraft server" := by decide

example :
    (MinecraftRCON.command ⟨some (), true⟩
      ⟨.reset "peer", false, .ok, .ok "pong"⟩ "list").result = "pong" := by
  decide

example :
    (MinecraftRCON.command ⟨some (), true⟩
      ⟨.reset "peer", false, .refused "no", .ok "pong"⟩ "list").result =
      "Error: Connection lost and reconnection failed" := by decide

/-- The apostrophe character (U+0027), needed by one pattern string. -/
def apos : Char := Char.ofNat 39

/-- The module constant `IMPORTANT_PATTERNS`: the fixed ordered pattern list of the module.
Every pattern is a literal string once the regex escapes are removed
(`r"\[ERROR\]"` denotes the literal `[ERROR]`). -/
def IMPORTANT_PATTERNS : List String :=
  ["joined the game",
   "left the game",
   "Starting minecraft server",
   "Stopping server",
   "[ERROR]",
   "SEVERE",
   "was slain by",
   "was killed by",
   "Can" ++ apos.toString ++ "t keep up!",
   "issued server command",
   ]

/-- Does the first character list occur contiguously anywhere in the
second?  This is `re.search` for a literal pattern. -/
def hasSub (p : List Char) : List Char → Bool
  | [] => hasPre p []
  | c :: t => hasPre p (c :: t) || hasSub p t

/-- One `pattern.search(line)` call for a pattern compiled with `re.IGNORECASE`:
case-insensitive (via lower-casing both sides) literal substring search. -/
def searchCI (pat line : String) : Bool :=
  hasSub (pat.data.map Char.toLower) (line.data.map Char.toLower)

/-- The function `is_important_log`: true iff any compiled pattern matches the line
(`any(pattern.search(line) for pattern in IMPORTANT_REGEX)`). -/
def is_important_log (line : String) : Bool :=
  IMPORTANT_PATTERNS.any fun p => searchCI p line

example : is_important_log "[12:00] Alice joined the game" = true := by decide
example : is_important_log "[12:00] ALICE JOINED THE GAME" = true := by decide
example : is_important_log "[12:00] server tick" = false := by decide
example :
    is_important_log ("[12:00] Can" ++ apos.toString ++ "t keep up! lag") =
      true := by decide

/-- Rewriting of the line terminators `\r\n` and `\r` to `\n`, the first
half of `str.splitlines` restricted to those terminators (the only ones
occurring in the watched log file). -/
def normalizeNewlines : List Char → List Char
  | [] => []
  | '\r' :: '\n' :: rest => '\n' :: normalizeNewlines rest
  | '\r' :: rest => '\n' :: normalizeNewlines rest
  | c :: rest => c :: normalizeNewlines rest

/-- Split on `'\n'`, dropping the separators, with no trailing empty line
for a terminated string and the unterminated tail kept as a final line. -/
def splitLinesAux : List Char → List Char → List String
  | [], acc => if acc.isEmpty then [] else [String.mk acc.reverse]
  | c :: rest, acc =>
    if c = '\n' then String.mk acc.reverse :: splitLinesAux rest []
    else splitLinesAux rest (c :: acc)

/-- Python `new_content.splitlines()`, restricted to the terminators
`\n`, `\r\n` and `\r`. -/
def splitLines (s : List Char) : List String :=
  splitLinesAux (normalizeNewlines s) []

example : splitLines "a\nbc\n".data = ["a", "bc"] := by decide
example : splitLines "a\r\nbc".data = ["a", "bc"] := by decide
example : splitLines "".data = [] := by decide
example : splitLines "\n\n".data = ["", ""] := by decide

/-- Result of one `LogWatcher.process_new_log_entries` step: the value of
the global `last_log_position` afterwards, the offset passed to
`file.seek` when a read happened (`none` when no read happened), and the
webhook messages sent, in order. -/
structure ProcResult where
  pos : Nat
  readStart : Option Nat
  sent : List String
deriving DecidableEq, Repr

/-- The method `LogWatcher.process_new_log_entries`, with the file contents at the
moment of the step given as a character list (`current_size =
os.path.getsize` is its length) and the global `last_log_position` passed
in as `pos`.  Rotation check: a size smaller than the position resets the
position to `0`.  If the size exceeds the (possibly reset) position, the
file is read from that offset to its end, the position is set to the size,
and every line that is non-empty and important is sent to the webhook
wrapped in triple backticks. -/
def process_new_log_entries (content : List Char) (pos : Nat) : ProcResult :=
  let currentSize := content.length
  let pos1 := if currentSize < pos then 0 else pos
  if pos1 < currentSize then
    let newContent := content.drop pos1
    let lines := splitLines newContent
    { pos := currentSize,
      readStart := some pos1,
      sent := (lines.filter fun l => !(l == "") && is_important_log l).map
        fun l => "```" ++ l ++ "```" }
  else
    { pos := pos1, readStart := none, sent := [] }

example :
    (process_new_log_entries "x joined the game\ny tick\n".data 0).sent =
      ["```x joined the game```"] := by decide
example :
    (process_new_log_entries "abcdef".data 9) =
      { pos := 6, readStart := some 0,
        sent := [] } := by decide
example :
    (process_new_log_entries "abcdef".data 6) =
      { pos := 6, readStart := none, sent := [] } := by decide

/-- The middleware `verify_token`: Python's
`request.headers.get("X-Secret-Token") == SECRET_TOKEN`, a plain equality
of two optional strings (`None == None` is `True` in Python). -/
def verify_token (headerToken : Option String) (secretToken : Option String) :
    Bool :=
  headerToken == secretToken

/-- Start index denoted by the Python slice `a[s:]` for a list of the given
length: negative values count from the end and clamp at `0`, non-negative
values clamp at the length. -/
def pySliceFrom (s : Int) (len : Nat) : Nat :=
  if s < 0 then (len + s).toNat else min len s.toNat

/-- The function `get_recent_logs(lines)`: the log file is `none` when
`os.path.exists` is false (yielding the not-found text) and otherwise the
list of its physical lines as returned by `readlines` (each keeping its
trailing newline); the result is `"".join(log_lines[-lines:])`. -/
def get_recent_logs (file : Option (List String)) (lines : Int) : String :=
  match file with
  | none => "Log file not found"
  | some logLines =>
      String.join (logLines.drop (pySliceFrom (-lines) logLines.length))

/-- Response of the `/logs` route. -/
inductive LogsResponse where
  | unauthorized
  | invalid (error : String)
  | success (logs : String)
deriving DecidableEq, Repr

/-- The route handler `handle_logs`: after the token check, the `lines`
query parameter (an integer when present, defaulting to `10` when absent)
is validated against `[1, 100]` — violation returns the `400` error without
touching the file — and otherwise `get_recent_logs(lines)` is returned in a
`success` payload. -/
def handle_logs (headerToken secretToken : Option String) (param : Option Int)
    (file : Option (List String)) : LogsResponse :=
  if verify_token headerToken secretToken = false then .unauthorized
  else
    let lines := param.getD 10
    if lines < 1 ∨ lines > 100 then
      .invalid "Please request between 1 and 100 lines"
    else
      .success (get_recent_logs file lines)

/-- Response of the `/command` route. -/
inductive CommandResponse where
  | unauthorized
  | missingCommand
  | success (result : String)
deriving DecidableEq, Repr

/-- The route handler `handle_command`: after the token check and the
presence check on the `command` field, it calls
`minecraft_rcon.command(command)` and always answers
`{"success": True, "result": result or "Command executed (no response)"}`
(Python `or` replaces an empty string by the fallback text). -/
def handle_command (headerToken secretToken : Option String)
    (body : Option String) (st : RconState) (b : CmdBehavior) :
    CommandResponse × RconState :=
  if verify_token headerToken secretToken = false then (.unauthorized, st)
  else
    match body with
    | none => (.missingCommand, st)
    | some cmd =>
        let r := MinecraftRCON.command st b cmd
        (.success (if r.result = "" then "Command executed (no response)"
                   else r.result),
         r.state)

example :
    handle_logs (some "t") (some "t") (some 2)
      (some ["a\n", "b\n", "c\n"]) = .success "b\nc\n" := by decide
example :
    handle_logs (some "t") (some "t") (some 0)
      (some ["a\n"]) = .invalid "Please request between 1 and 100 lines" := by
  decide
example :
    handle_logs (some "t") (some "t") none (some ["a\n"]) =
      .success "a\n" := by decide
example :
    handle_logs (some "t") (some "u") none (some ["a\n"]) =
      .unauthorized := by decide
example :
    (handle_command none none (some "list") ⟨none, false⟩
      ⟨.ok "x", false, .ok, .ok "x"⟩).fst =
      .success "Not connected to Minecraft server" := by decide
example :
    (handle_command none none (some "list") ⟨some (), true⟩
      ⟨.ok "", false, .ok, .ok ""⟩).fst =
      .success "Command executed (no response)" := by decide

/-! ## Helper lemmas -/

theorem hasPre_append (p rest : List Char) : hasPre p (p ++ rest) = true := by
  induction p with
  | nil => rfl
  | cons a as ih => simp [hasPre, ih]

theorem isErrorClassified_append (msg : String) :
    isErrorClassified ("Error: " ++ msg) = true := by
  unfold isErrorClassified
  rw [String.data_append]
  exact hasPre_append _ _

/-- Every call to `MinecraftRCON.command` performs at most one
disconnect/reconnect recovery attempt. -/
theorem command_recoverCount_le_one (st : RconState) (b : CmdBehavior)
    (cmd : String) : (MinecraftRCON.command st b cmd).recoverCount ≤ 1 := by
  obtain ⟨ro, rc⟩ := st
  obtain ⟨f, cr, rcn, rt⟩ := b
  cases ro <;> cases rc <;> cases f <;> cases cr <;> cases rcn <;> cases rt <;>
    simp [MinecraftRCON.command, MinecraftRCON.connect,
      MinecraftRCON.disconnect, transportCommand]

/-- Every call to `MinecraftRCON.command` performs at most two transport
sends: the original one and at most one retry. -/
theorem command_sendCount_le_two (st : RconState) (b : CmdBehavior)
    (cmd : String) : (MinecraftRCON.command st b cmd).sendCount ≤ 2 := by
  obtain ⟨ro, rc⟩ := st
  obtain ⟨f, cr, rcn, rt⟩ := b
  cases ro <;> cases rc <;> cases f <;> cases cr <;> cases rcn <;> cases rt <;>
    simp [MinecraftRCON.command, MinecraftRCON.connect,
      MinecraftRCON.disconnect, transportCommand]

theorem any_perm {α : Type} (f : α → Bool) {l₁ l₂ : List α}
    (h : List.Perm l₁ l₂) : l₁.any f = l₂.any f := by
  cases ha : l₁.any f
  · cases hb : l₂.any f
    · rfl
    · exfalso
      rw [List.any_eq_true] at hb
      obtain ⟨x, hx, hfx⟩ := hb
      have hc : l₁.any f = true :=
        List.any_eq_true.mpr ⟨x, h.mem_iff.mpr hx, hfx⟩
      rw [ha] at hc
      exact Bool.false_ne_true hc
  · cases hb : l₂.any f
    · exfalso
      rw [List.any_eq_true] at ha
      obtain ⟨x, hx, hfx⟩ := ha
      have hc : l₂.any f = true :=
        List.any_eq_true.mpr ⟨x, h.mem_iff.mp hx, hfx⟩
      rw [hb] at hc
      exact Bool.false_ne_true hc
    · rfl

/-! ## Claim theorems -/

/-- Claim C2: for every command string, if the session is not connected
(`rcon_connected` false), `command` returns the "not connected" sentinel
string, performs no transport send and no recovery attempt, and leaves the
state unchanged. -/
theorem command_disconnected_sentinel (st : RconState) (b : CmdBehavior)
    (cmd : String) (h : st.rconConnected = false) :
    MinecraftRCON.command st b cmd =
      { state := st, result := "Not connected to Minecraft server",
        sendCount := 0, recoverCount := 0 } := by
  simp [MinecraftRCON.command, h]

/-- Witness for C2 at a concrete disconnected state. -/
theorem command_disconnected_sentinel_witness :
    (⟨some (), false⟩ : RconState).rconConnected = false ∧
    MinecraftRCON.command ⟨some (), false⟩
      ⟨.ok "players online", false, .ok, .ok "players online"⟩ "list" =
      { state := ⟨some (), false⟩,
        result := "Not connected to Minecraft server",
        sendCount := 0, recoverCount := 0 } :=
  ⟨rfl, command_disconnected_sentinel ⟨some (), false⟩
    ⟨.ok "players online", false, .ok, .ok "players online"⟩ "list" rfl⟩

/-- Claim C1: if a connected `command` call hits a transport-level
connection reset, exactly one recovery attempt is performed; when the
reconnect succeeds the command is retried exactly once and the retry's
result is returned (its failure yielding an error-classified string); when
the reconnect fails, an error-classified string is returned; and no call
ever performs more than one recovery attempt or more than one retry. -/
theorem command_reset_single_recovery (st : RconState) (b : CmdBehavior)
    (cmd m : String) (hc : st.rconConnected = true) (hh : st.rcon = some ())
    (hf : b.first = .reset m) :
    (MinecraftRCON.command st b cmd).recoverCount = 1 ∧
    (b.reconnect = .ok →
       (MinecraftRCON.command st b cmd).sendCount = 2 ∧
       (∀ resp, b.retry = .ok resp →
          (MinecraftRCON.command st b cmd).result = resp) ∧
       (∀ msg, b.retry = .reset msg →
          isErrorClassified (MinecraftRCON.command st b cmd).result = true) ∧
       (∀ msg, b.retry = .err msg →
          isErrorClassified (MinecraftRCON.command st b cmd).result = true)) ∧
    (b.reconnect ≠ .ok →
       (MinecraftRCON.command st b cmd).sendCount = 1 ∧
       (MinecraftRCON.command st b cmd).result =
         "Error: Connection lost and reconnection failed" ∧
       isErrorClassified (MinecraftRCON.command st b cmd).result = true) ∧
    (∀ (st' : RconState) (b' : CmdBehavior) (cmd' : String),
       (MinecraftRCON.command st' b' cmd').recoverCount ≤ 1 ∧
       (MinecraftRCON.command st' b' cmd').sendCount ≤ 2) := by
  obtain ⟨ro, rc⟩ := st
  obtain ⟨f, cr, rcn, rt⟩ := b
  simp only at hf
  subst hf
  simp only at hc hh
  subst hc
  subst hh
  refine ⟨?_, ?_, ?_, fun st' b' cmd' =>
    ⟨command_recoverCount_le_one st' b' cmd',
     command_sendCount_le_two st' b' cmd'⟩⟩
  · cases cr <;> cases rcn <;> cases rt <;>
      simp [MinecraftRCON.command, MinecraftRCON.connect,
        MinecraftRCON.disconnect, transportCommand]
  · intro hok
    simp only at hok
    subst hok
    cases cr <;> cases rt <;>
      simp [MinecraftRCON.command, MinecraftRCON.connect,
        MinecraftRCON.disconnect, transportCommand, isErrorClassified_append]
  · intro hne
    cases cr <;> cases rcn <;>
      simp_all [MinecraftRCON.command, MinecraftRCON.connect,
        MinecraftRCON.disconnect, transportCommand, isErrorClassified,
        hasPre]

/-- Witness for C1: concrete connected state, reset on the first send,
successful reconnect, successful retry. -/
theorem command_reset_single_recovery_witness :
    (⟨some (), true⟩ : RconState).rconConnected = true ∧
    (⟨some (), true⟩ : RconState).rcon = some () ∧
    (⟨.reset "peer reset", false, .ok, .ok "pong"⟩ : CmdBehavior).first =
      .reset "peer reset" ∧
    (MinecraftRCON.command ⟨some (), true⟩
      ⟨.reset "peer reset", false, .ok, .ok "pong"⟩ "list").recoverCount = 1 ∧
    (MinecraftRCON.command ⟨some (), true⟩
      ⟨.reset "peer reset", false, .ok, .ok "pong"⟩ "list").sendCount = 2 ∧
    (MinecraftRCON.command ⟨some (), true⟩
      ⟨.reset "peer reset", false, .ok, .ok "pong"⟩ "list").result = "pong" :=
  ⟨rfl, rfl, rfl,
   (command_reset_single_recovery ⟨some (), true⟩
     ⟨.reset "peer reset", false, .ok, .ok "pong"⟩ "list" "peer reset"
     rfl rfl rfl).1,
   ((command_reset_single_recovery ⟨some (), true⟩
     ⟨.reset "peer reset", false, .ok, .ok "pong"⟩ "list" "peer reset"
     rfl rfl rfl).2.1 rfl).1,
   (((command_reset_single_recovery ⟨some (), true⟩
     ⟨.reset "peer reset", false, .ok, .ok "pong"⟩ "list" "peer reset"
     rfl rfl rfl).2.1 rfl).2.1 "pong" rfl)⟩

/-- Counterexample to claim C5 as stated: in a connected state with a live
transport handle, when the underlying close raises, `disconnect` swallows
the exception before the flag assignment is reached, so `rcon_connected`
stays `true` afterwards — not `false` as the claim requires. -/
theorem disconnect_close_raises_keeps_flag :
    (MinecraftRCON.disconnect ⟨some (), true⟩ true).rconConnected = true := by
  decide

/-- Claim C5 (amended): `disconnect` never fails observably, and when a
transport handle exists and the underlying close does not raise it leaves
`rcon_connected` false — also after a second consecutive call; but when the
underlying close raises, or when no handle exists, the whole state
(including the flag) is left unchanged. -/
theorem disconnect_amended (st : RconState) (closeRaises : Bool) :
    (st.rcon ≠ none → closeRaises = false →
       (MinecraftRCON.disconnect st closeRaises).rconConnected = false ∧
       (MinecraftRCON.disconnect (MinecraftRCON.disconnect st closeRaises)
           closeRaises).rconConnected = false) ∧
    (closeRaises = true → MinecraftRCON.disconnect st closeRaises = st) ∧
    (st.rcon = none → MinecraftRCON.disconnect st closeRaises = st) := by
  obtain ⟨ro, rc⟩ := st
  cases ro <;> cases closeRaises <;> simp [MinecraftRCON.disconnect]

/-- Witness for C5 (amended) at a connected state with a non-raising
close. -/
theorem disconnect_amended_witness :
    (⟨some (), true⟩ : RconState).rcon ≠ none ∧
    (MinecraftRCON.disconnect ⟨some (), true⟩ false).rconConnected = false ∧
    (MinecraftRCON.disconnect
       (MinecraftRCON.disconnect ⟨some (), true⟩ false) false).rconConnected =
      false :=
  ⟨by decide,
   ((disconnect_amended ⟨some (), true⟩ false).1 (by decide) rfl).1,
   ((disconnect_amended ⟨some (), true⟩ false).1 (by decide) rfl).2⟩

/-- Counterexample to claim C6 as stated: a failing `connect` call from a
fresh session (no handle) leaves the freshly created `MCRcon` instance in
the `rcon` field — a partial transport handle is retained, contrary to the
claim. -/
theorem connect_failure_retains_handle :
    (MinecraftRCON.connect ⟨none, false⟩ (.fail "socket timeout")).state.rcon =
      some () := by decide

/-- Claim C6 (amended): every failing `connect` call leaves
`rcon_connected` false, signals a classified error (a connection-refused
failure produces a notification distinct from the one for other failures),
and returns `False` instead of throwing; but the session retains the
partially-created transport object in its `rcon` field. -/
theorem connect_failure_amended (st : RconState) (b : ConnectOutcome) :
    ((MinecraftRCON.connect st b).success = false →
       (MinecraftRCON.connect st b).state.rconConnected = false ∧
       (MinecraftRCON.connect st b).state.rcon = some ()) ∧
    (∀ m, b = .refused m →
       (MinecraftRCON.connect st b).success = false ∧
       (MinecraftRCON.connect st b).notices =
         ["RCON connection refused. Is the Minecraft server running?"]) ∧
    (∀ m, b = .fail m →
       (MinecraftRCON.connect st b).success = false ∧
       (MinecraftRCON.connect st b).notices =
         ["RCON connection error: " ++ m]) := by
  cases b <;> simp [MinecraftRCON.connect]

/-- Witness for C6 (amended) at a concrete failing connect. -/
theorem connect_failure_amended_witness :
    (MinecraftRCON.connect ⟨none, false⟩ (.refused "port closed")).success =
      false ∧
    (MinecraftRCON.connect ⟨none, false⟩
       (.refused "port closed")).state.rconConnected = false ∧
    (MinecraftRCON.connect ⟨none, false⟩
       (.refused "port closed")).state.rcon = some () ∧
    (MinecraftRCON.connect ⟨none, false⟩ (.refused "port closed")).notices =
      ["RCON connection refused. Is the Minecraft server running?"] :=
  ⟨((connect_failure_amended ⟨none, false⟩ (.refused "port closed")).2.1
      "port closed" rfl).1,
   ((connect_failure_amended ⟨none, false⟩ (.refused "port closed")).1
      (by decide)).1,
   ((connect_failure_amended ⟨none, false⟩ (.refused "port closed")).1
      (by decide)).2,
   ((connect_failure_amended ⟨none, false⟩ (.refused "port closed")).2.1
      "port closed" rfl).2⟩

/-- Claim C3: on a change notification where the current file size exceeds
the cursor offset, the step reads exactly the bytes
`[cursor.offset, current_size)`, sets the cursor to `current_size`, and
sends to the webhook exactly the non-empty lines of that byte range that
the classifier marks important, one message per matching line, in order. -/
theorem process_growth (content : List Char) (pos : Nat)
    (h : pos < content.length) :
    (process_new_log_entries content pos).readStart = some pos ∧
    (process_new_log_entries content pos).pos = content.length ∧
    (process_new_log_entries content pos).sent =
      ((splitLines ((content.take content.length).drop pos)).filter
         fun l => !(l == "") && is_important_log l).map
        fun l => "```" ++ l ++ "```" := by
  have h2 : ¬ content.length < pos := Nat.not_lt.mpr (Nat.le_of_lt h)
  refine ⟨?_, ?_, ?_⟩ <;>
    simp [process_new_log_entries, h, h2, List.take_length]

/-- Witness for C3: one important and one unimportant appended line. -/
theorem process_growth_witness :
    0 < ("x joined the game\ntick\n".data).length ∧
    ((process_new_log_entries "x joined the game\ntick\n".data 0).readStart =
       some 0 ∧
     (process_new_log_entries "x joined the game\ntick\n".data 0).pos =
       ("x joined the game\ntick\n".data).length ∧
     (process_new_log_entries "x joined the game\ntick\n".data 0).sent =
       ((splitLines ((("x joined the game\ntick\n".data).take
            ("x joined the game\ntick\n".data).length).drop 0)).filter
          fun l => !(l == "") && is_important_log l).map
         fun l => "```" ++ l ++ "```") :=
  ⟨by decide, process_growth "x joined the game\ntick\n".data 0 (by decide)⟩

/-- Claim C4: when the observed size is strictly smaller than the cursor,
the cursor is reset to `0` before any read and the read of that very step
(performed iff the file is non-empty) starts at byte `0` — the whole step
coincides with a step taken at cursor `0`; when the size equals the
cursor, the step is a no-op: the cursor is unchanged, nothing is read and
nothing is sent. -/
theorem process_rotation_and_noop (content : List Char) (pos : Nat) :
    (content.length < pos →
       process_new_log_entries content pos =
         process_new_log_entries content 0 ∧
       (0 < content.length →
          (process_new_log_entries content pos).readStart = some 0 ∧
          (process_new_log_entries content pos).pos = content.length) ∧
       (content.length = 0 →
          process_new_log_entries content pos =
            { pos := 0, readStart := none, sent := [] })) ∧
    (content.length = pos →
       process_new_log_entries content pos =
         { pos := pos, readStart := none, sent := [] }) := by
  constructor
  · intro h
    refine ⟨?_, fun hpos => ⟨?_, ?_⟩, fun hz => ?_⟩
    · simp [process_new_log_entries, h]
    · simp [process_new_log_entries, h, hpos]
    · simp [process_new_log_entries, h, hpos]
    · simp [process_new_log_entries, h, hz]
  · intro h
    subst h
    simp [process_new_log_entries]

/-- Witness for C4: a file shrunk from cursor 9 to 6 bytes, and a file
whose size equals the cursor. -/
theorem process_rotation_and_noop_witness :
    ("abcdef".data.length < 9 ∧
     process_new_log_entries "abcdef".data 9 =
       process_new_log_entries "abcdef".data 0 ∧
     (process_new_log_entries "abcdef".data 9).readStart = some 0 ∧
     (process_new_log_entries "abcdef".data 9).pos =
       "abcdef".data.length) ∧
    ("abcdef".data.length = 6 ∧
     process_new_log_entries "abcdef".data 6 =
       { pos := 6, readStart := none, sent := [] }) :=
  ⟨⟨by decide,
    ((process_rotation_and_noop "abcdef".data 9).1 (by decide)).1,
    (((process_rotation_and_noop "abcdef".data 9).1
        (by decide)).2.1 (by decide)).1,
    (((process_rotation_and_noop "abcdef".data 9).1
        (by decide)).2.1 (by decide)).2⟩,
   ⟨by decide, (process_rotation_and_noop "abcdef".data 6).2 (by decide)⟩⟩

/-- Claim C7: for every authorized logs request, an integer parameter
outside `[1, 100]` yields the validation failure without the file being
consulted; a parameter inside `[1, 100]` yields exactly the last `N`
physical lines of the file (all of them when the file has fewer), joined
back together; an omitted parameter behaves exactly like `N = 10`. -/
theorem handle_logs_spec (h s : Option String) (N : Int)
    (file : Option (List String)) (ls : List String)
    (hauth : verify_token h s = true) :
    ((N < 1 ∨ N > 100) →
       handle_logs h s (some N) file =
         .invalid "Please request between 1 and 100 lines" ∧
       ∀ file', handle_logs h s (some N) file' =
         handle_logs h s (some N) file) ∧
    (1 ≤ N → N ≤ 100 → file = some ls →
       handle_logs h s (some N) file =
         .success (String.join (ls.drop (ls.length - N.toNat))) ∧
       (ls.drop (ls.length - N.toNat)).length = min N.toNat ls.length ∧
       ls.take (ls.length - N.toNat) ++ ls.drop (ls.length - N.toNat) = ls) ∧
    handle_logs h s none file = handle_logs h s (some 10) file := by
  refine ⟨fun hN => ⟨?_, fun file' => ?_⟩, fun h1 h100 hf => ?_, ?_⟩
  · simp only [handle_logs, hauth, Bool.true_eq_false, if_false,
      Option.getD_some]
    rw [if_pos hN]
  · simp only [handle_logs, hauth, Bool.true_eq_false, if_false,
      Option.getD_some]
    rw [if_pos hN, if_pos hN]
  · subst hf
    have hcond : ¬ (N < 1 ∨ N > 100) := by omega
    refine ⟨?_, ?_, List.take_append_drop _ _⟩
    · simp only [handle_logs, hauth, Bool.true_eq_false, if_false,
        Option.getD_some]
      rw [if_neg hcond]
      simp only [get_recent_logs, pySliceFrom]
      have hneg : -N < 0 := by omega
      rw [if_pos hneg]
      have harg : ((ls.length : Int) + -N).toNat = ls.length - N.toNat := by
        omega
      rw [harg]
    · rw [List.length_drop]
      omega
  · simp [handle_logs]

/-- Witness for C7: authorized requests with `N = 0` (rejected, file not
consulted), `N = 2` (last two lines), and no parameter (same as ten). -/
theorem handle_logs_spec_witness :
    verify_token (some "tok") (some "tok") = true ∧
    ((0 : Int) < 1 ∨ (0 : Int) > 100) ∧
    handle_logs (some "tok") (some "tok") (some 0) (some ["a\n", "b\n"]) =
      .invalid "Please request between 1 and 100 lines" ∧
    handle_logs (some "tok") (some "tok") (some 0) none =
      handle_logs (some "tok") (some "tok") (some 0) (some ["a\n", "b\n"]) ∧
    (1 ≤ (2 : Int) ∧ (2 : Int) ≤ 100) ∧
    handle_logs (some "tok") (some "tok") (some 2)
      (some ["a\n", "b\n", "c\n"]) =
      .success (String.join
        (["a\n", "b\n", "c\n"].drop
          (["a\n", "b\n", "c\n"].length - (2 : Int).toNat))) ∧
    handle_logs (some "tok") (some "tok") none (some ["a\n", "b\n", "c\n"]) =
      handle_logs (some "tok") (some "tok") (some 10)
        (some ["a\n", "b\n", "c\n"]) :=
  ⟨by decide, by decide,
   ((handle_logs_spec (some "tok") (some "tok") 0 (some ["a\n", "b\n"]) []
       (by decide)).1 (by omega)).1,
   ((handle_logs_spec (some "tok") (some "tok") 0 (some ["a\n", "b\n"]) []
       (by decide)).1 (by omega)).2 none,
   ⟨by omega, by omega⟩,
   ((handle_logs_spec (some "tok") (some "tok") 2
       (some ["a\n", "b\n", "c\n"]) ["a\n", "b\n", "c\n"] (by decide)).2.1
       (by omega) (by omega) rfl).1,
   (handle_logs_spec (some "tok") (some "tok") 2
       (some ["a\n", "b\n", "c\n"]) ["a\n", "b\n", "c\n"] (by decide)).2.2⟩

/-- Claim C8: every authorized `/command` request carrying a `command`
field gets an HTTP success whose payload is the RCON-layer string (or the
fallback text when that string is empty), whatever the RCON-layer outcome;
in particular, a disconnected session yields a success response carrying
the "not connected" sentinel. -/
theorem handle_command_always_success (h s : Option String) (cmd : String)
    (st : RconState) (b : CmdBehavior) (hauth : verify_token h s = true) :
    (handle_command h s (some cmd) st b).fst =
      .success (if (MinecraftRCON.command st b cmd).result = ""
                then "Command executed (no response)"
                else (MinecraftRCON.command st b cmd).result) ∧
    (st.rconConnected = false →
       (handle_command h s (some cmd) st b).fst =
         .success "Not connected to Minecraft server") := by
  constructor
  · simp [handle_command, hauth]
  · intro hd
    rw [handle_command, command_disconnected_sentinel st b cmd hd]
    simp [hauth]

/-- Witness for C8 at a disconnected session with matching (absent)
tokens: the HTTP layer still answers success, carrying the sentinel. -/
theorem handle_command_always_success_witness :
    verify_token (some "tok") (some "tok") = true ∧
    (handle_command (some "tok") (some "tok") (some "list") ⟨some (), false⟩
       ⟨.ok "resp", false, .ok, .ok "resp"⟩).fst =
      .success (if (MinecraftRCON.command ⟨some (), false⟩
                     ⟨.ok "resp", false, .ok, .ok "resp"⟩ "list").result = ""
                then "Command executed (no response)"
                else (MinecraftRCON.command ⟨some (), false⟩
                       ⟨.ok "resp", false, .ok, .ok "resp"⟩ "list").result) ∧
    (handle_command (some "tok") (some "tok") (some "list") ⟨some (), false⟩
       ⟨.ok "resp", false, .ok, .ok "resp"⟩).fst =
      .success "Not connected to Minecraft server" :=
  ⟨by decide,
   (handle_command_always_success (some "tok") (some "tok") "list"
      ⟨some (), false⟩ ⟨.ok "resp", false, .ok, .ok "resp"⟩ (by decide)).1,
   (handle_command_always_success (some "tok") (some "tok") "list"
      ⟨some (), false⟩ ⟨.ok "resp", false, .ok, .ok "resp"⟩ (by decide)).2
     rfl⟩

/-- Claim C9: the classifier is a pure function of the line; it returns
true exactly when some pattern of the fixed case-insensitive set matches,
and permuting the matcher list does not change the boolean result. -/
theorem is_important_log_spec (line : String) :
    (is_important_log line = true ↔
       ∃ p ∈ IMPORTANT_PATTERNS, searchCI p line = true) ∧
    (∀ l', List.Perm IMPORTANT_PATTERNS l' →
       (l'.any fun p => searchCI p line) = is_important_log line) := by
  constructor
  · simp [is_important_log, List.any_eq_true]
  · intro l' hp
    unfold is_important_log
    exact (any_perm (fun p => searchCI p line) hp).symm

/-- Witness for C9 at a concrete matching line, with the identity
permutation of the matcher list. -/
theorem is_important_log_spec_witness :
    (is_important_log "Bob joined the game" = true ↔
       ∃ p ∈ IMPORTANT_PATTERNS, searchCI p "Bob joined the game" = true) ∧
    (IMPORTANT_PATTERNS.any fun p => searchCI p "Bob joined the game") =
      is_important_log "Bob joined the game" :=
  ⟨(is_important_log_spec "Bob joined the game").1,
   (is_important_log_spec "Bob joined the game").2 IMPORTANT_PATTERNS
     (List.Perm.refl IMPORTANT_PATTERNS)⟩

/-- Claim C10: authorization succeeds exactly when the `X-Secret-Token`
header equals the configured secret as optional values; with no secret
configured and no header sent, both are `None` and the request is treated
as authorized, so a `/command` request is then never rejected with 401. -/
theorem verify_token_plain_equality :
    (∀ h s : Option String, verify_token h s = true ↔ h = s) ∧
    verify_token none none = true ∧
    (∀ (cmd : String) (st : RconState) (b : CmdBehavior),
       (handle_command none none (some cmd) st b).fst ≠
         CommandResponse.unauthorized) := by
  refine ⟨fun h s => ?_, rfl, fun cmd st b => ?_⟩
  · simp [verify_token]
  · simp [handle_command, verify_token]

/-- Witness for C10 at concrete header/secret values. -/
theorem verify_token_plain_equality_witness :
    (verify_token (some "a") (some "a") = true ↔
       (some "a" : Option String) = some "a") ∧
    verify_token none none = true ∧
    (handle_command none none (some "list") ⟨none, false⟩
       ⟨.ok "r", false, .ok, .ok "r"⟩).fst ≠
      CommandResponse.unauthorized :=
  ⟨verify_token_plain_equality.1 (some "a") (some "a"),
   verify_token_plain_equality.2.1,
   verify_token_plain_equality.2.2 "list" ⟨none, false⟩
     ⟨.ok "r", false, .ok, .ok "r"⟩⟩
